import Mathlib

/-!
Shallow embedding of `anypay-websockets-rust` (files `src/server.rs` and
`src/types.rs`) for checking the natural-language specification against the
code.  Pure data types are translated directly from `types.rs`; the
per-connection control loop of `server.rs` is embedded as explicit state
passing over a `ConnState` record; the external Supabase data service is an
oracle parameter; the components of the repository whose source files are not
available (`event_dispatcher.rs`, `session.rs`) are modelled from the spec and
marked as such in their doc comments.
-/

/-- Session identifier: `Uuid` in the source (`uuid::Uuid::new_v4()`), modelled
as an opaque natural number; the connection handler receives a fresh one as a
parameter. -/
abbrev SessionId := Nat

/-- Modelled from the spec: `session.rs` is not in `src/`.  A `Session` is the
server-side handle for one live client connection; it is cheaply clonable and
carries the process-unique identifier.  Its outbound channel is represented by
the `queue` component of the connection state below (the sender half), drained
by the writer task `send_task`. -/
structure Session where
  id : SessionId
deriving Repr, DecidableEq

/-- `types.rs`: `Subscription { sub_type, id }` — the topic key: a kind string
and a resource identifier string. -/
structure Subscription where
  sub_type : String
  id : String
deriving Repr, DecidableEq

/-- `types.rs`: `Invoice` — the record returned by the data service. -/
structure Invoice where
  id : Int
  uid : String
  amount : Int
  currency : String
  status : String
  created_at : String
  updated_at : String
  account_id : Int
  address : Option String
  hash : Option String
  complete : Bool
deriving Repr, DecidableEq

/-- `types.rs`: the inbound message vocabulary, a serde enum internally tagged
by the `"action"` field, with variants `subscribe`, `unsubscribe`,
`fetch_invoice` and `create_invoice`. -/
inductive Message where
  | Subscribe (sub_type : String) (id : String)
  | Unsubscribe (sub_type : String) (id : String)
  | FetchInvoice (id : String)
  | CreateInvoice (amount : Int) (currency : String) (account_id : Int)
deriving Repr, DecidableEq

/-- The JSON values produced by `serde_json::json!` in `server.rs` all have the
shape `{status, message?}` or `{status, data?}`; we embed them as this record
(`data` carries the invoice payload of a successful fetch). -/
structure Response where
  status : String
  message : Option String
  data : Option Invoice
deriving Repr, DecidableEq

/-- A JSON value, for embedding the serde decoding of inbound frames. -/
inductive Json where
  | null
  | bool (b : Bool)
  | num (n : Int)
  | str (s : String)
  | arr (elems : List Json)
  | obj (fields : List (String × Json))

/-- First binding of a key in a JSON object (serde_json maps have unique keys
after parsing). -/
def lookupField (fields : List (String × Json)) (k : String) : Option Json :=
  match fields with
  | [] => none
  | (k2, v) :: rest => if k2 = k then some v else lookupField rest k

/-- Extract a JSON string, as serde does for a `String` field. -/
def Json.asStr : Json → Option String
  | .str s => some s
  | _ => none

/-- Extract a JSON integer, as serde does for an `i64` field. -/
def Json.asInt : Json → Option Int
  | .num n => some n
  | _ => none

/-- The serde-derived decoder for `Message` (`types.rs`): the object's
`"action"` tag selects the variant, whose named fields must be present with
the declared types (`type`/`id` strings for subscriptions, `id` string for
`fetch_invoice`, `amount`/`account_id` integers and `currency` string for
`create_invoice`); unknown extra fields are ignored. -/
def decodeMessage (j : Json) : Option Message :=
  match j with
  | .obj fields =>
    match lookupField fields "action" with
    | some (.str "subscribe") =>
      match (lookupField fields "type").bind Json.asStr,
            (lookupField fields "id").bind Json.asStr with
      | some t, some i => some (.Subscribe t i)
      | _, _ => none
    | some (.str "unsubscribe") =>
      match (lookupField fields "type").bind Json.asStr,
            (lookupField fields "id").bind Json.asStr with
      | some t, some i => some (.Unsubscribe t i)
      | _, _ => none
    | some (.str "fetch_invoice") =>
      match (lookupField fields "id").bind Json.asStr with
      | some i => some (.FetchInvoice i)
      | none => none
    | some (.str "create_invoice") =>
      match (lookupField fields "amount").bind Json.asInt,
            (lookupField fields "currency").bind Json.asStr,
            (lookupField fields "account_id").bind Json.asInt with
      | some a, some c, some acct => some (.CreateInvoice a c acct)
      | _, _, _ => none
    | _ => none
  | _ => none

/-- The subscription registry state of the `EventDispatcher`: a map from topic
to the set of subscribed session identifiers, embedded as an association
list. -/
abbrev Registry := List (Subscription × List SessionId)

/-- Add an identifier to a subscriber set, idempotently. -/
def addId (ids : List SessionId) (i : SessionId) : List SessionId :=
  if i ∈ ids then ids else ids ++ [i]

/-- Modelled from the spec: `EventDispatcher::subscribe` (`event_dispatcher.rs`
is not in `src/`).  Per spec sections 4.2 and 3, it records the session's
identifier (not the session handle) under the `(kind, id)` topic, idempotently,
and always succeeds. -/
def Registry.subscribe (r : Registry) (session : Session) (sub_type : String)
    (id : String) : Registry :=
  match r with
  | [] => [(⟨sub_type, id⟩, [session.id])]
  | (t, ids) :: rest =>
    if t = ⟨sub_type, id⟩ then (t, addId ids session.id) :: rest
    else (t, ids) :: Registry.subscribe rest session sub_type id

/-- Modelled from the spec: `EventDispatcher::unsubscribe` — removes the
session's identifier from the topic's subscriber set; a no-op when it was never
subscribed. -/
def Registry.unsubscribe (r : Registry) (session : Session) (sub_type : String)
    (id : String) : Registry :=
  match r with
  | [] => []
  | (t, ids) :: rest =>
    if t = ⟨sub_type, id⟩ then (t, ids.filter (fun i => i ≠ session.id)) :: rest
    else (t, ids) :: Registry.unsubscribe rest session sub_type id

/-- Modelled from the spec: `EventDispatcher::remove_session` — purges a
session identifier from every topic's subscriber set.  (Note: the connection
handler in `server.rs` never invokes it.) -/
def Registry.remove_session (r : Registry) (sid : SessionId) : Registry :=
  r.map (fun p => (p.1, p.2.filter (fun i => i ≠ sid)))

/-- Subscriber set currently recorded for a topic. -/
def lookupTopic (r : Registry) (t : Subscription) : List SessionId :=
  match r with
  | [] => []
  | (t2, ids) :: rest => if t2 = t then ids else lookupTopic rest t

/-- The global session table: session identifier to live `Session` handle
(`sessions: Arc<RwLock<HashMap<Uuid, Session>>>` in `server.rs`). -/
abbrev SessionTable := SessionId → Option Session

/-- Modelled from the spec: `EventDispatcher::publish` — looks up the topic's
subscriber identifiers and delivers the event to each subscriber that is live
in the session table; dead identifiers receive nothing.  Returns the list of
identifiers actually delivered to. -/
def Registry.publish (r : Registry) (table : SessionTable) (sub_type : String)
    (id : String) : List SessionId :=
  (lookupTopic r ⟨sub_type, id⟩).filter (fun i => (table i).isSome)

/-- The external data service: `SupabaseClient::get_invoice(id, expand_related)
-> Result<Option<Invoice>, Error>` (`supabase.rs` is not in `src/`; its call
signature is taken from the call site in `server.rs` and spec section 6), as an
oracle.  The error type is the error's display string. -/
abbrev SupabaseClient := String → Bool → Except String (Option Invoice)

/-- Result of `handle_message`: the synchronous response value (`none` when the
match in the source has no arm for the message — see `handle_message`), the
updated registry, and the log of `get_invoice(id, expand_related)` calls issued
to the data service. -/
structure HMResult where
  response : Option Response
  registry : Registry
  calls : List (String × Bool)
deriving Repr

/-- `server.rs`: `AnypayEventsServer::handle_message`.  Matches the decoded
message: `Subscribe`/`Unsubscribe` call the dispatcher and answer with a
success confirmation; `FetchInvoice` calls `supabase.get_invoice(&id, true)`
and maps `Ok(Some)` to success with data, `Ok(None)` to "Invoice not found",
`Err(e)` to "Error fetching invoice: {e}".  The source match has NO arm for
`Message::CreateInvoice` (it is non-exhaustive); that case is embedded as
producing no response, touching neither the registry nor the data service. -/
def handle_message (message : Message) (session : Session) (registry : Registry)
    (supabase : SupabaseClient) : HMResult :=
  match message with
  | .Subscribe sub_type id =>
    { response := some ⟨"success", some ("Subscribed to " ++ sub_type ++ " " ++ id), none⟩
      registry := registry.subscribe session sub_type id
      calls := [] }
  | .Unsubscribe sub_type id =>
    { response := some ⟨"success", some ("Unsubscribed from " ++ sub_type ++ " " ++ id), none⟩
      registry := registry.unsubscribe session sub_type id
      calls := [] }
  | .FetchInvoice id =>
    match supabase id true with
    | .ok (some invoice) =>
      { response := some ⟨"success", none, some invoice⟩
        registry := registry
        calls := [(id, true)] }
    | .ok none =>
      { response := some ⟨"error", some "Invoice not found", none⟩
        registry := registry
        calls := [(id, true)] }
    | .error e =>
      { response := some ⟨"error", some ("Error fetching invoice: " ++ e), none⟩
        registry := registry
        calls := [(id, true)] }
  | .CreateInvoice _ _ _ =>
    { response := none
      registry := registry
      calls := [] }

/-- One item yielded by `ws_receiver.next()` together with the outcome of the
subsequent `msg.to_text()` call in `server.rs`:
`text j` — a frame whose payload converts to text and parses as the JSON value
`j`; `badText` — a frame whose payload converts to text but is not valid JSON
(`serde_json::from_str` fails at the syntax level); `nonText` — a frame for
which `to_text()` itself errs (e.g. binary data that is not valid UTF-8). -/
inductive WsFrame where
  | text (payload : Json)
  | badText
  | nonText

/-- The `Result<tungstenite::Message, Error>` yielded by the websocket stream:
either a frame, or a transport read error. -/
inductive Incoming where
  | ok (frame : WsFrame)
  | ioErr

/-- The `{"status":"error","message":"Invalid message format"}` value built in
`handle_connection` when `serde_json::from_str::<Message>` fails. -/
def invalid_format_response : Response :=
  ⟨"error", some "Invalid message format", none⟩

/-- The per-connection state threaded through `handle_connection`: the shared
subscription registry, the shared global session table, and this session's
outbound channel contents (messages enqueued by `session.send`, in order). -/
structure ConnState where
  registry : Registry
  sessions : SessionTable
  queue : List Response

/-- One iteration of the `while let Some(msg) = ws_receiver.next()` loop in
`handle_connection`.  Returns the updated state and whether the loop continues:
a read error breaks the loop; a frame that fails `to_text()` falls through the
`if let Ok(text)` with no effect; a text frame is decoded — on success the
response of `handle_message` (when that match produces one) is enqueued on the
session's channel, on decode failure the invalid-format response is enqueued —
and the loop continues.  (`session.send` is modelled as succeeding: the channel
is unbounded and its receiver is held by the writer task.) -/
def processIncoming (supabase : SupabaseClient) (session : Session)
    (st : ConnState) (inc : Incoming) : ConnState × Bool :=
  match inc with
  | .ioErr => (st, false)
  | .ok .nonText => (st, true)
  | .ok .badText =>
    ({ st with queue := st.queue ++ [invalid_format_response] }, true)
  | .ok (.text j) =>
    match decodeMessage j with
    | some m =>
      let r := handle_message m session st.registry supabase
      ({ st with
          registry := r.registry
          queue := st.queue ++ (match r.response with
            | some v => [v]
            | none => []) }, true)
    | none =>
      ({ st with queue := st.queue ++ [invalid_format_response] }, true)

/-- The whole receive loop of `handle_connection`, over the sequence of items
the websocket stream yields: processes items in order until one breaks the loop
or the stream ends. -/
def processFrames (supabase : SupabaseClient) (session : Session) :
    ConnState → List Incoming → ConnState
  | st, [] => st
  | st, inc :: rest =>
    match processIncoming supabase session st inc with
    | (st2, true) => processFrames supabase session st2 rest
    | (st2, false) => st2

/-- Insert a session into the global session table
(`sessions.write().await.insert(session_id, session.clone())`). -/
def tableInsert (table : SessionTable) (sid : SessionId) (s : Session) :
    SessionTable :=
  fun k => if k = sid then some s else table k

/-- Remove a session from the global session table
(`sessions.write().await.remove(&session_id)`). -/
def tableRemove (table : SessionTable) (sid : SessionId) : SessionTable :=
  fun k => if k = sid then none else table k

/-- `handle_connection` up to but excluding the final cleanup: create the
session with the fresh identifier, store it in the global session table, and
run the receive loop. -/
def processAll (supabase : SupabaseClient) (sid : SessionId) (st0 : ConnState)
    (incs : List Incoming) : ConnState :=
  let session : Session := ⟨sid⟩
  processFrames supabase session
    { st0 with sessions := tableInsert st0.sessions sid session } incs

/-- `server.rs`: `AnypayEventsServer::handle_connection`, as a function of the
fresh session identifier, the initial shared state and the incoming item
sequence.  After the receive loop exits (stream end or read error), the only
cleanup performed is `sessions.write().await.remove(&session_id)`: the session
is removed from the global session table; no dispatcher operation is invoked. -/
def handle_connection (supabase : SupabaseClient) (sid : SessionId)
    (st0 : ConnState) (incs : List Incoming) : ConnState :=
  let st := processAll supabase sid st0 incs
  { st with sessions := tableRemove st.sessions sid }

/-- `server.rs`: the writer task spawned by `handle_connection`
(`_send_task`): drains the session's channel in order, writing each message to
the websocket; a write error breaks the loop.  `ok i` tells whether the `i`-th
write attempt succeeds; the result is the list of messages actually written, in
order. -/
def send_task (ok : Nat → Bool) : Nat → List Response → List Response
  | _, [] => []
  | i, m :: ms => if ok i then m :: send_task ok (i + 1) ms else []

/-- Does a session identifier appear under any topic of the registry? -/
def sessionIdInRegistry (sid : SessionId) (r : Registry) : Bool :=
  r.any (fun p => p.2.contains sid)

/-! Concrete fixtures used by counterexamples and witnesses. -/

/-- A data-service oracle that finds no record. -/
def sbNone : SupabaseClient := fun _ _ => Except.ok none

/-- A data-service oracle that agrees with `sbNone` on every `expand = true`
call but differs elsewhere. -/
def sbAlt : SupabaseClient := fun _ b =>
  if b then Except.ok none else Except.error "other"

/-- The spec's subscribe scenario frame:
`{"action":"subscribe","type":"invoice","id":"42"}`. -/
def sub42json : Json :=
  .obj [("action", .str "subscribe"), ("type", .str "invoice"), ("id", .str "42")]

/-- A decodable `create_invoice` frame:
`{"action":"create_invoice","amount":100,"currency":"USD","account_id":1}`. -/
def create_invoice_frame : Json :=
  .obj [("action", .str "create_invoice"), ("amount", .num 100),
        ("currency", .str "USD"), ("account_id", .num 1)]

/-- A second decodable `create_invoice` frame:
`{"action":"create_invoice","amount":7,"currency":"BTC","account_id":2}`. -/
def create_invoice_frame2 : Json :=
  .obj [("action", .str "create_invoice"), ("amount", .num 7),
        ("currency", .str "BTC"), ("account_id", .num 2)]

/-- Empty shared state: no subscriptions, no sessions, empty channel. -/
def st_empty : ConnState := ⟨[], fun _ => none, []⟩

/-- C2: a `create_invoice` request decodes into the message vocabulary, yet
`handle_message` has no arm for it: it produces no response, issues no
data-service call, and leaves the registry untouched — contradicting the
spec's table row (call the external write, answer success or error) and its
own requirement not to silently ignore the variant.  As Rust, the
non-exhaustive match does not even compile. -/
theorem create_invoice_unhandled :
    decodeMessage create_invoice_frame = some (.CreateInvoice 100 "USD" 1)
    ∧ ∀ (supabase : SupabaseClient) (session : Session) (registry : Registry),
      (handle_message (.CreateInvoice 100 "USD" 1) session registry supabase).response = none
      ∧ (handle_message (.CreateInvoice 100 "USD" 1) session registry supabase).calls = []
      ∧ (handle_message (.CreateInvoice 100 "USD" 1) session registry supabase).registry = registry :=
  ⟨rfl, fun _ _ _ => ⟨rfl, rfl, rfl⟩⟩

/-- C7: the `FetchInvoice` arm maps `Ok(None)` to exactly
`{"status":"error","message":"Invoice not found"}`, `Ok(Some(invoice))` to
status=success with the record as data, and a service error `e` to
status=error with message `"Error fetching invoice: " ++ e`. -/
theorem fetch_invoice_response_cases
    (supabase : SupabaseClient) (session : Session) (registry : Registry)
    (id : String) :
    (supabase id true = .ok none →
      (handle_message (.FetchInvoice id) session registry supabase).response
        = some ⟨"error", some "Invoice not found", none⟩)
    ∧ (∀ invoice, supabase id true = .ok (some invoice) →
      (handle_message (.FetchInvoice id) session registry supabase).response
        = some ⟨"success", none, some invoice⟩)
    ∧ (∀ e, supabase id true = .error e →
      (handle_message (.FetchInvoice id) session registry supabase).response
        = some ⟨"error", some ("Error fetching invoice: " ++ e), none⟩) := by
  refine ⟨fun h => ?_, fun invoice h => ?_, fun e h => ?_⟩ <;>
    simp [handle_message, h]

/-- C7 witness: fetching `"does-not-exist"` against a data service returning no
record yields the "Invoice not found" error response. -/
theorem fetch_invoice_response_cases_witness :
    (handle_message (.FetchInvoice "does-not-exist") ⟨0⟩ [] sbNone).response
      = some ⟨"error", some "Invoice not found", none⟩ :=
  (fetch_invoice_response_cases sbNone ⟨0⟩ [] "does-not-exist").1 rfl

/-- C8: every `Subscribe` request succeeds with a confirmation naming kind and
id; in particular the spec's scenario frame decodes to
`Subscribe "invoice" "42"` and yields `"Subscribed to invoice 42"`. -/
theorem subscribe_success_response
    (supabase : SupabaseClient) (session : Session) (registry : Registry)
    (sub_type id : String) :
    (handle_message (.Subscribe sub_type id) session registry supabase).response
      = some ⟨"success", some ("Subscribed to " ++ sub_type ++ " " ++ id), none⟩
    ∧ decodeMessage sub42json = some (.Subscribe "invoice" "42")
    ∧ (handle_message (.Subscribe "invoice" "42") session registry supabase).response
      = some ⟨"success", some "Subscribed to invoice 42", none⟩ :=
  ⟨rfl, rfl, rfl⟩

/-- C9: the `FetchInvoice` arm calls the data service exactly once, as
`get_invoice(id, true)` — the `expand_related` flag is hard-coded to `true` —
and its whole result depends only on that one call. -/
theorem fetch_invoice_calls_expand_true
    (supabase : SupabaseClient) (session : Session) (registry : Registry)
    (id : String) :
    (handle_message (.FetchInvoice id) session registry supabase).calls = [(id, true)]
    ∧ (∀ supabase2 : SupabaseClient, supabase id true = supabase2 id true →
      handle_message (.FetchInvoice id) session registry supabase
        = handle_message (.FetchInvoice id) session registry supabase2) := by
  constructor
  · cases h : supabase id true with
    | ok o => cases o <;> simp [handle_message, h]
    | error e => simp [handle_message, h]
  · intro supabase2 h
    simp only [handle_message]
    rw [← h]

/-- C9 witness: the call log and oracle-independence at a concrete input. -/
theorem fetch_invoice_calls_expand_true_witness :
    (handle_message (.FetchInvoice "x") ⟨1⟩ [] sbNone).calls = [("x", true)]
    ∧ handle_message (.FetchInvoice "x") ⟨1⟩ [] sbNone
      = handle_message (.FetchInvoice "x") ⟨1⟩ [] sbAlt :=
  ⟨(fetch_invoice_calls_expand_true sbNone ⟨1⟩ [] "x").1,
   (fetch_invoice_calls_expand_true sbNone ⟨1⟩ [] "x").2 sbAlt rfl⟩

/-- C10: processing any single inbound item (a decodable request, an
undecodable frame, a non-text frame, or even a read error) leaves the global
session table pointwise unchanged, and so does the whole receive loop: entries
change only at connection accept (`tableInsert`) and close (`tableRemove`). -/
theorem request_handling_preserves_sessions
    (supabase : SupabaseClient) (session : Session) (k : SessionId) :
    (∀ (st : ConnState) (inc : Incoming),
      ((processIncoming supabase session st inc).1.sessions) k = st.sessions k)
    ∧ (∀ (incs : List Incoming) (st : ConnState),
      (processFrames supabase session st incs).sessions k = st.sessions k) := by
  have hstep : ∀ (st : ConnState) (inc : Incoming),
      ((processIncoming supabase session st inc).1.sessions) k = st.sessions k := by
    intro st inc
    cases inc with
    | ioErr => rfl
    | ok f =>
      cases f with
      | nonText => rfl
      | badText => rfl
      | text j =>
        cases h : decodeMessage j <;> simp [processIncoming, h]
  refine ⟨hstep, ?_⟩
  intro incs
  induction incs with
  | nil => intro st; rfl
  | cons inc rest ih =>
    intro st
    have h2 := hstep st inc
    cases hp : processIncoming supabase session st inc with
    | mk st2 b =>
      rw [hp] at h2
      cases b with
      | true =>
        simp only [processFrames, hp]
        rw [ih st2]
        exact h2
      | false =>
        simp only [processFrames, hp]
        exact h2

/-- C1 counterexample: a session subscribes to topic (invoice, 42) and then the
stream ends (the loop exits).  After `handle_connection` finishes, the session
identifier is gone from the global session table but is STILL present in the
subscription registry: the close transition does not deregister from the
registry, refuting "deregistered exactly once from both". -/
theorem close_leaves_registry_counterexample :
    sessionIdInRegistry 0
      ((handle_connection sbNone 0 st_empty [Incoming.ok (WsFrame.text sub42json)]).registry) = true
    ∧ (handle_connection sbNone 0 st_empty [Incoming.ok (WsFrame.text sub42json)]).registry
      = [(⟨"invoice", "42"⟩, [0])]
    ∧ (handle_connection sbNone 0 st_empty [Incoming.ok (WsFrame.text sub42json)]).sessions 0
      = none := by
  refine ⟨?_, ?_, ?_⟩ <;> rfl

/-- C1 amended: whatever path ends the receive loop, the close transition
removes the session from the global session table (leaving every other entry
untouched) — but performs no registry deregistration: the registry after
`handle_connection` is exactly the registry the processing loop left. -/
theorem close_removes_table_only
    (supabase : SupabaseClient) (sid : SessionId) (st0 : ConnState)
    (incs : List Incoming) :
    (handle_connection supabase sid st0 incs).sessions sid = none
    ∧ (handle_connection supabase sid st0 incs).registry
      = (processAll supabase sid st0 incs).registry
    ∧ (∀ k, k ≠ sid →
      (handle_connection supabase sid st0 incs).sessions k
        = (processAll supabase sid st0 incs).sessions k) := by
  refine ⟨?_, rfl, ?_⟩
  · simp [handle_connection, tableRemove]
  · intro k hk
    simp [handle_connection, tableRemove, hk]

/-- C1 amended, witness: entry 1 of the table is untouched by closing
session 0. -/
theorem close_removes_table_only_witness :
    (handle_connection sbNone 0 st_empty []).sessions 1
      = (processAll sbNone 0 st_empty []).sessions 1 :=
  (close_removes_table_only sbNone 0 st_empty []).2.2 1 (by decide)

/-- C4 counterexample: a frame whose payload cannot be decoded because
`to_text()` itself fails (e.g. binary that is not valid UTF-8) is silently
skipped by the `if let Ok(text)` — zero responses are enqueued, not one
"Invalid message format" error — though the connection does stay open. -/
theorem nontext_frame_no_response_counterexample :
    (processIncoming sbNone ⟨0⟩ st_empty (Incoming.ok WsFrame.nonText)).1.queue = []
    ∧ (processIncoming sbNone ⟨0⟩ st_empty (Incoming.ok WsFrame.nonText)).2 = true :=
  ⟨rfl, rfl⟩

/-- C4 amended: for every frame that converts to text but fails to decode
(either not valid JSON, or JSON that matches no recognized shape), exactly one
`{"status":"error","message":"Invalid message format"}` response is enqueued
and the loop continues; frames that do not convert to text are skipped with no
response; a transport read error is what breaks the loop. -/
theorem invalid_payload_single_error_response
    (supabase : SupabaseClient) (session : Session) (st : ConnState) (j : Json) :
    (decodeMessage j = none →
      processIncoming supabase session st (.ok (.text j))
        = ({ st with queue := st.queue ++ [invalid_format_response] }, true))
    ∧ processIncoming supabase session st (.ok .badText)
      = ({ st with queue := st.queue ++ [invalid_format_response] }, true)
    ∧ (processIncoming supabase session st (.ok .nonText)) = (st, true)
    ∧ (processIncoming supabase session st .ioErr).2 = false := by
  refine ⟨fun h => ?_, rfl, rfl, rfl⟩
  simp [processIncoming, h]

/-- C4 amended, witness: the JSON value `null` matches no recognized shape and
gets exactly the invalid-format error response. -/
theorem invalid_payload_single_error_response_witness :
    processIncoming sbNone ⟨2⟩ st_empty (Incoming.ok (WsFrame.text Json.null))
      = ({ st_empty with queue := [invalid_format_response] }, true) :=
  (invalid_payload_single_error_response sbNone ⟨2⟩ st_empty Json.null).1 rfl

/-- C5 counterexample: a well-formed, decodable `create_invoice` frame is
received on an open connection, yet zero responses are enqueued for it (the
source match has no arm for the variant) — refuting "every inbound frame
enqueues exactly one synchronous response". -/
theorem create_invoice_frame_no_response_counterexample :
    decodeMessage create_invoice_frame2 = some (.CreateInvoice 7 "BTC" 2)
    ∧ (processIncoming sbNone ⟨3⟩ st_empty
        (Incoming.ok (WsFrame.text create_invoice_frame2))).1.queue = []
    ∧ (processIncoming sbNone ⟨3⟩ st_empty
        (Incoming.ok (WsFrame.text create_invoice_frame2))).2 = true :=
  ⟨rfl, rfl, rfl⟩

/-- C5 amended: a text frame that decodes to a handled message (Subscribe,
Unsubscribe, FetchInvoice) or fails to decode enqueues exactly one response;
a frame that does not convert to text enqueues none, and so does a decodable
`create_invoice` frame (the unhandled variant). -/
theorem handled_frame_exactly_one_response
    (supabase : SupabaseClient) (session : Session) (st : ConnState) (j : Json) :
    ((∀ a c acct, decodeMessage j ≠ some (.CreateInvoice a c acct)) →
      ((processIncoming supabase session st (.ok (.text j))).1.queue).length
        = st.queue.length + 1)
    ∧ ((processIncoming supabase session st (.ok .badText)).1.queue).length
      = st.queue.length + 1
    ∧ ((processIncoming supabase session st (.ok .nonText)).1.queue).length
      = st.queue.length
    ∧ (∀ a c acct, decodeMessage j = some (.CreateInvoice a c acct) →
      ((processIncoming supabase session st (.ok (.text j))).1.queue).length
        = st.queue.length) := by
  refine ⟨fun hne => ?_, by simp [processIncoming], rfl, fun a c acct h => ?_⟩
  · cases h : decodeMessage j with
    | none => simp [processIncoming, h]
    | some m =>
      cases m with
      | Subscribe t i => simp [processIncoming, h, handle_message]
      | Unsubscribe t i => simp [processIncoming, h, handle_message]
      | FetchInvoice i =>
        cases hs : supabase i true with
        | ok o => cases o <;> simp [processIncoming, h, handle_message, hs]
        | error e => simp [processIncoming, h, handle_message, hs]
      | CreateInvoice a c acct => exact absurd h (hne a c acct)
  · simp [processIncoming, h, handle_message]

/-- C5 amended, witness: an undecodable text frame gets exactly one response;
a `create_invoice` frame gets none. -/
theorem handled_frame_exactly_one_response_witness :
    ((processIncoming sbNone ⟨4⟩ st_empty (Incoming.ok (WsFrame.text Json.null))).1.queue).length = 1
    ∧ ((processIncoming sbNone ⟨4⟩ st_empty
        (Incoming.ok (WsFrame.text create_invoice_frame2))).1.queue).length = 0 :=
  ⟨(handled_frame_exactly_one_response sbNone ⟨4⟩ st_empty Json.null).1
     (by intro a c acct; simp [decodeMessage]),
   (handled_frame_exactly_one_response sbNone ⟨4⟩ st_empty create_invoice_frame2).2.2.2
     7 "BTC" 2 rfl⟩

/-- An identifier found in `addId ids i` was already in `ids` or is `i`. -/
theorem mem_addId {ids : List SessionId} {i x : SessionId}
    (h : x ∈ addId ids i) : x ∈ ids ∨ x = i := by
  unfold addId at h
  by_cases hi : i ∈ ids
  · simp [hi] at h
    exact Or.inl h
  · simp [hi] at h
    exact h

/-- C3: the registry holds session identifiers, never session handles: a
subscribe call records at most the new session's identifier under the topic
(everything else was already there); delivery via `publish` hands an event only
to identifiers that are both subscribed and live in the separate session table;
in particular a session absent from the table receives nothing even right after
subscribing — the registry does not keep it alive. -/
theorem registry_ids_and_delivery
    (r : Registry) (table : SessionTable) (session : Session)
    (sub_type id : String) (x : SessionId) :
    (x ∈ lookupTopic (r.subscribe session sub_type id) ⟨sub_type, id⟩ →
      x ∈ lookupTopic r ⟨sub_type, id⟩ ∨ x = session.id)
    ∧ (x ∈ r.publish table sub_type id →
      (table x).isSome ∧ x ∈ lookupTopic r ⟨sub_type, id⟩)
    ∧ (table session.id = none →
      session.id ∉ (r.subscribe session sub_type id).publish table sub_type id) := by
  refine ⟨?_, ?_, ?_⟩
  · intro h
    induction r with
    | nil =>
      simp [Registry.subscribe, lookupTopic] at h
      exact Or.inr h
    | cons p rest ih =>
      obtain ⟨t, ids⟩ := p
      by_cases ht : t = (⟨sub_type, id⟩ : Subscription)
      · simp [Registry.subscribe, ht, lookupTopic] at h ⊢
        rcases mem_addId h with hx | hx
        · exact Or.inl hx
        · exact Or.inr hx
      · simp [Registry.subscribe, ht, lookupTopic] at h ⊢
        exact ih h
  · intro h
    simp [Registry.publish, List.mem_filter] at h
    exact ⟨h.2, h.1⟩
  · intro hnone hmem
    simp [Registry.publish, List.mem_filter, hnone] at hmem

/-- C3 witness: a freshly subscribed session that is not in the session table
receives no delivery from a publish to its topic. -/
theorem registry_ids_and_delivery_witness :
    (0 : SessionId) ∉
      (Registry.subscribe [] ⟨0⟩ "invoice" "42").publish (fun _ => none) "invoice" "42" :=
  (registry_ids_and_delivery [] (fun _ => none) ⟨0⟩ "invoice" "42" 0).2.2 rfl

/-- The writer task's output is always an initial segment of its channel. -/
theorem send_task_is_take (ok : Nat → Bool) :
    ∀ (i : Nat) (q : List Response), ∃ n, send_task ok i q = q.take n := by
  intro i q
  induction q generalizing i with
  | nil => exact ⟨0, rfl⟩
  | cons m ms ih =>
    by_cases h : ok i
    · obtain ⟨n, hn⟩ := ih (i + 1)
      exact ⟨n + 1, by simp [send_task, h, hn]⟩
    · exact ⟨0, by simp [send_task, h]⟩

/-- C6: per-session outbound delivery is first-in-first-out: the sequence of
messages the writer task actually writes to the transport is an initial segment
(`List.take`) of the channel contents in enqueue order — so whenever message A
is enqueued before message B and both are written, A is written first, at the
same relative positions. -/
theorem send_task_fifo (ok : Nat → Bool) (q : List Response) :
    ∃ n, send_task ok 0 q = q.take n :=
  send_task_is_take ok 0 q
